import Mathlib

/-!
Shallow embedding of the `keypress` repository (two Python source files:
`minimum_interval.py` and `key_reader.py`) together with proofs of the
specification claims about them.

Timestamps (Python `time.time()` floats) are modelled as rationals `ℚ`.
Terminal mode attributes (`termios.tcgetattr` results) are modelled as an
opaque byte list `TermAttrs`.  Standard input is modelled as a list of
buffered characters; standard output as a list of emitted lines.
-/

namespace Keypress

/-! ### Embedding of `src/minimum_interval.py`

```python
def wait_for_enter(prompt = "", minimum_interval = 0.8):
    if not hasattr(wait_for_enter, "input_time"):
        wait_for_enter.input_time = None
    while True:
        text = input(prompt)
        previous_time = wait_for_enter.input_time
        wait_for_enter.input_time = time.time()
        if previous_time == None or len(text) > 0 or \
           wait_for_enter.input_time - previous_time >= minimum_interval:
            return text
```

The persistent function attribute `wait_for_enter.input_time` is the state
`Option ℚ` (`none` models the attribute being `None`).  Each iteration of the
`while` loop reads one line; we model the stream of future `input()` results
as a list of `(text, time.time() value)` pairs.
-/

/-- The value of `wait_for_enter.input_time` installed by the `hasattr` guard
before any read attempt has ever completed: Python `None`. -/
def initial_input_time : Option ℚ := none

/-- The acceptance condition of line 11 of `minimum_interval.py`:
`previous_time == None or len(text) > 0 or
 input_time - previous_time >= minimum_interval`,
with Python short-circuit `or` (the subtraction is only evaluated when
`previous_time` is not `None`). -/
def acceptCond : Option ℚ → String → ℚ → ℚ → Bool
  | none, _, _, _ => true
  | some previous_time, text, input_time, minimum_interval =>
      decide (0 < text.length) || decide (input_time - previous_time ≥ minimum_interval)

/-- One iteration of the `while` loop body given the stored state and the line
just read at the current time: returns the new stored state (always
`some now`, lines 9-10 run unconditionally) and whether the `if` accepts. -/
def step (input_time : Option ℚ) (text : String) (now minimum_interval : ℚ) :
    Option ℚ × Bool :=
  (some now, acceptCond input_time text now minimum_interval)

/-- `wait_for_enter` run against a finite list of pending read attempts
`(text, time)`.  Returns `some (text, state, rest)` with the accepted line's
text, the stored timestamp at return, and the unconsumed attempts, or `none`
when every pending attempt is rejected (the real loop would block for more
input). -/
def wait_for_enter (minimum_interval : ℚ) :
    Option ℚ → List (String × ℚ) → Option (String × Option ℚ × List (String × ℚ))
  | _, [] => none
  | input_time, (text, now) :: rest =>
      let r := step input_time text now minimum_interval
      if r.2 then some (text, r.1, rest)
      else wait_for_enter minimum_interval r.1 rest

/-! ### Embedding of `src/key_reader.py`

`KeyReader` has fields `verbose` (set in `__init__`) and `old_settings`
(assigned only inside `open()` on the non-win32 path; modelled as
`Option TermAttrs`, `none` while the Python attribute does not exist).
The system state carries the terminal attributes, the buffered stdin
characters and the stdout lines. -/

/-- Terminal mode attributes (`termios.tcgetattr` snapshot), opaque bytes. -/
abbrev TermAttrs := List Nat

/-- The platform branch `sys.platform == 'win32'`, selected once at import. -/
inductive Platform
  | win32
  | posix
deriving DecidableEq

/-- Python errors that the embedded code can raise. -/
inductive PyError
  | attributeError
deriving DecidableEq

/-- The `KeyReader` object: `verbose` from `__init__`; `old_settings` is
`none` while the attribute has never been assigned. -/
structure KeyReader where
  verbose : Bool
  old_settings : Option TermAttrs
deriving DecidableEq

/-- `KeyReader(verbose)`: `__init__` sets only `self.verbose`. -/
def KeyReader.init (verbose : Bool) : KeyReader := ⟨verbose, none⟩

/-- State of the terminal and standard streams. -/
structure SysState where
  attrs : TermAttrs
  buf : List Char
  out : List String
deriving DecidableEq

/-- win32 `msvcrt.kbhit()`: true iff a key is waiting in the buffer. -/
def kbhit (buf : List Char) : Bool := !buf.isEmpty

/-- POSIX `select.select([sys.stdin], [], [], 0)`: with a zero timeout,
stdin is reported readable iff data is buffered. -/
def selectReady (buf : List Char) : Bool := !buf.isEmpty

/-- A blocking one-character fetch (`getch()` / `sys.stdin.read(1)`):
`none` means the call would block forever (no data and none arriving). -/
def blockingFetch : List Char → Option (Char × List Char)
  | [] => none
  | c :: rest => some (c, rest)

/-- `KeyReader.open`: optional diagnostic print, then on the non-win32 path
save `old_settings := tcgetattr(stdin)` and switch the terminal to cbreak
mode (`cbreak` is the opaque attribute transformation of `tty.setcbreak`). -/
def KeyReader.open (p : Platform) (cbreak : TermAttrs → TermAttrs)
    (kr : KeyReader) (s : SysState) : KeyReader × SysState :=
  let s1 := if kr.verbose then { s with out := s.out ++ ["KeyReader: Opening..."] } else s
  match p with
  | .win32 => (kr, s1)
  | .posix =>
      ({ kr with old_settings := some s1.attrs }, { s1 with attrs := cbreak s1.attrs })

/-- `KeyReader.close`: optional diagnostic print, then on the non-win32 path
`tcsetattr(stdin, TCSADRAIN, self.old_settings)`; reading the attribute when
it was never assigned raises `AttributeError`. -/
def KeyReader.close (p : Platform) (kr : KeyReader) (s : SysState) :
    SysState × Option PyError :=
  let s1 := if kr.verbose then { s with out := s.out ++ ["KeyReader: Closing..."] } else s
  match p with
  | .win32 => (s1, none)
  | .posix =>
      match kr.old_settings with
      | none => (s1, some .attributeError)
      | some a => ({ s1 with attrs := a }, none)

/-- `KeyReader.read`: win32 path guards `getch()` by `kbhit()`; POSIX path
guards `sys.stdin.read(1)` by a zero-timeout `select`.  The outer `Option` is
`none` when the call would block (never, as proved below); the inner
`Option Char` is the returned `value` (`none` models Python `None`). -/
def KeyReader.read (p : Platform) (_kr : KeyReader) (s : SysState) :
    Option (Option Char × SysState) :=
  match p with
  | .win32 =>
      if kbhit s.buf then
        (blockingFetch s.buf).map (fun cr => (some cr.1, { s with buf := cr.2 }))
      else some (none, s)
  | .posix =>
      if selectReady s.buf then
        (blockingFetch s.buf).map (fun cr => (some cr.1, { s with buf := cr.2 }))
      else some (none, s)

/-- `n` successive calls to `read()`, collecting the returned values.
Stops early only if a call would block (which never happens). -/
def reads (p : Platform) (kr : KeyReader) : Nat → SysState → List (Option Char) × SysState
  | 0, s => ([], s)
  | n + 1, s =>
      match KeyReader.read p kr s with
      | none => ([], s)
      | some (v, s1) =>
          let r := reads p kr n s1
          (v :: r.1, r.2)

/-- `with KeyReader(verbose) as key_reader: body` — scoped acquisition.
`__enter__` calls `open()`; the body may read/print (it acts on the stdin
buffer and stdout lines) and may raise an exception `E`; `__exit__` calls
`close()` on both the normal and the exceptional path.  Returns the final
system state and the propagated exception, if any (a close-time Python error
takes over, as it would be raised inside `__exit__`). -/
def withKeyReader {E : Type} (p : Platform) (cbreak : TermAttrs → TermAttrs)
    (verbose : Bool)
    (body : List Char × List String → (List Char × List String) × Option E)
    (s : SysState) : SysState × Option (E ⊕ PyError) :=
  let kr := KeyReader.init verbose
  let o := KeyReader.open p cbreak kr s
  let b := body (o.2.buf, o.2.out)
  let s2 : SysState := ⟨o.2.attrs, b.1.1, b.1.2⟩
  let c := KeyReader.close p o.1 s2
  match c.2 with
  | some pe => (c.1, some (Sum.inr pe))
  | none => (c.1, Option.map Sum.inl b.2)

/-! ### Helper lemmas -/

/-- Unfolding `wait_for_enter` on a consumed attempt. -/
theorem wait_for_enter_cons (minimum_interval : ℚ) (input_time : Option ℚ)
    (text : String) (now : ℚ) (rest : List (String × ℚ)) :
    wait_for_enter minimum_interval input_time ((text, now) :: rest) =
      if acceptCond input_time text now minimum_interval then some (text, some now, rest)
      else wait_for_enter minimum_interval (some now) rest := by
  simp [wait_for_enter, step]

/-- Whenever the loop returns, the stored timestamp is the accepted attempt's
time, and that attempt was among the pending ones. -/
theorem wait_result_state (minimum_interval : ℚ) :
    ∀ attempts (st : Option ℚ) (text : String) (st1 : Option ℚ)
      (rest : List (String × ℚ)),
      wait_for_enter minimum_interval st attempts = some (text, st1, rest) →
      ∃ now, st1 = some now ∧ (text, now) ∈ attempts
  | [], _, _, _, _, h => by simp [wait_for_enter] at h
  | (t, n) :: as, st, text, st1, rest, h => by
      rw [wait_for_enter_cons] at h
      by_cases hc : acceptCond st t n minimum_interval = true
      · rw [if_pos hc] at h
        obtain ⟨rfl, rfl, rfl⟩ : t = text ∧ some n = st1 ∧ as = rest := by
          simpa using h
        exact ⟨n, rfl, List.mem_cons_self _ _⟩
      · rw [if_neg hc] at h
        obtain ⟨now, h1, h2⟩ := wait_result_state minimum_interval as (some n) text st1 rest h
        exact ⟨now, h1, List.mem_cons_of_mem _ h2⟩

/-! ### Claim theorems for `minimum_interval.py` -/

/-- C1: a line read inside `wait_for_enter` is accepted iff no prior recorded
timestamp exists, or the text is non-empty, or the elapsed time since the
previous attempt's timestamp is at least `minimum_interval`; on acceptance the
loop returns that text, and a rejected line makes the loop prompt and read
again (continue on the remaining attempts with updated state). -/
theorem claim_C1 (minimum_interval now : ℚ) (st : Option ℚ) (text : String)
    (rest : List (String × ℚ)) :
    (acceptCond st text now minimum_interval = true ↔
      st = none ∨ 0 < text.length ∨ ∃ p, st = some p ∧ now - p ≥ minimum_interval) ∧
    (acceptCond st text now minimum_interval = true →
      wait_for_enter minimum_interval st ((text, now) :: rest) =
        some (text, some now, rest)) ∧
    (acceptCond st text now minimum_interval = false →
      wait_for_enter minimum_interval st ((text, now) :: rest) =
        wait_for_enter minimum_interval (some now) rest) := by
  refine ⟨?_, ?_, ?_⟩
  · cases st with
    | none => simp [acceptCond]
    | some p =>
        simp only [acceptCond, Bool.or_eq_true, decide_eq_true_eq]
        constructor
        · rintro (h | h)
          · exact Or.inr (Or.inl h)
          · exact Or.inr (Or.inr ⟨p, rfl, h⟩)
        · rintro (h | h | ⟨q, hq, h⟩)
          · exact absurd h (by simp)
          · exact Or.inl h
          · cases Option.some.inj hq
            exact Or.inr h
  · intro h
    rw [wait_for_enter_cons, if_pos h]
  · intro h
    rw [wait_for_enter_cons, if_neg (by simp [h])]

/-- Witness for C1 at concrete inputs: an accepted non-empty line at gap 0.1
returns immediately, and a rejected empty line at gap 0.2 < 0.8 loops on. -/
theorem claim_C1_witness :
    wait_for_enter (4/5) (some 0) [("hi", 1/10)] = some ("hi", some (1/10), []) ∧
    wait_for_enter (4/5) (some 0) [("", 1/5), ("", 1)] =
      wait_for_enter (4/5) (some (1/5)) [("", 1)] := by
  constructor
  · exact (claim_C1 (4/5) (1/10) (some 0) "hi" []).2.1 (by decide)
  · exact (claim_C1 (4/5) (1/5) (some 0) "" [("", 1)]).2.2 (by norm_num [acceptCond])

/-- C4: the stored timestamp starts out `None`, every read attempt stores the
current time regardless of the acceptance outcome, and whenever the loop
returns, the stored timestamp is the (non-`None`) time of the attempt that
was accepted. -/
theorem claim_C4 (minimum_interval : ℚ) :
    initial_input_time = none ∧
    (∀ (st : Option ℚ) (text : String) (now : ℚ),
      (step st text now minimum_interval).1 = some now) ∧
    (∀ (attempts : List (String × ℚ)) (st : Option ℚ) (text : String)
      (st1 : Option ℚ) (rest : List (String × ℚ)),
      wait_for_enter minimum_interval st attempts = some (text, st1, rest) →
      ∃ now, st1 = some now ∧ (text, now) ∈ attempts) :=
  ⟨rfl, fun _ _ _ => rfl, fun attempts st text st1 rest h =>
    wait_result_state minimum_interval attempts st text st1 rest h⟩

/-- Witness for C4: a rejected-then-accepted run whose returned state is the
time of the accepted attempt. -/
theorem claim_C4_witness :
    Keypress.initial_input_time = none ∧
    (Keypress.step (some 0) "" (1/5) (4/5)).1 = some (1/5) ∧
    ∃ now, (some (1:ℚ)) = some now ∧ ("", now) ∈ [("", (1/5 : ℚ)), ("", (1 : ℚ))] :=
  ⟨(claim_C4 (4/5)).1, (claim_C4 (4/5)).2.1 (some 0) "" (1/5),
    (claim_C4 (4/5)).2.2 [("", 1/5), ("", 1)] (some 0) "" (some 1) []
      (by rw [wait_for_enter_cons, if_neg (by norm_num [acceptCond]),
              wait_for_enter_cons, if_pos (by norm_num [acceptCond])])⟩

/-- C5: a non-empty line is never debounced: whatever the stored timestamp and
however small the elapsed time, the acceptance condition holds and the loop
returns the line at once. -/
theorem claim_C5 (text : String) (h : 0 < text.length) (st : Option ℚ)
    (now minimum_interval : ℚ) (rest : List (String × ℚ)) :
    acceptCond st text now minimum_interval = true ∧
    wait_for_enter minimum_interval st ((text, now) :: rest) =
      some (text, some now, rest) := by
  have ha : acceptCond st text now minimum_interval = true := by
    cases st <;> simp [acceptCond, h]
  exact ⟨ha, by rw [wait_for_enter_cons, if_pos ha]⟩

/-- Witness for C5: "hello" submitted 0.01 after a previous attempt, far below
the 0.8 interval, is accepted immediately. -/
theorem claim_C5_witness :
    acceptCond (some 0) "hello" (1/100) (4/5) = true ∧
    wait_for_enter (4/5) (some 0) [("hello", 1/100)] =
      some ("hello", some (1/100), []) :=
  claim_C5 "hello" (by decide) (some 0) (1/100) (4/5) []

/-- C6: with `minimum_interval = 0.8` and fresh state, empty-line attempts at
t = 0, 0.2, 0.3, 1.2 produce exactly two accepted submissions: the one at
t = 0 (first-call rule, first call returns) and the one at t = 1.2 (the second
call rejects t = 0.2 and t = 0.3 against the immediately preceding attempt and
accepts t = 1.2 since 1.2 - 0.3 ≥ 0.8). -/
theorem claim_C6 :
    wait_for_enter (4/5) none [("", 0), ("", 1/5), ("", 3/10), ("", 6/5)] =
      some ("", some 0, [("", 1/5), ("", 3/10), ("", 6/5)]) ∧
    wait_for_enter (4/5) (some 0) [("", 1/5), ("", 3/10), ("", 6/5)] =
      some ("", some (6/5), []) := by
  constructor
  · rw [wait_for_enter_cons, if_pos (by norm_num [acceptCond])]
  · rw [wait_for_enter_cons, if_neg (by norm_num [acceptCond]),
        wait_for_enter_cons, if_neg (by norm_num [acceptCond]),
        wait_for_enter_cons, if_pos (by norm_num [acceptCond])]

/-- C10: every read attempt leaves a non-`None` timestamp, so after the first
attempt ever the stored state is never `None` again: any return of the loop
carries a `some` state, and with a `some` state the first-call branch of the
acceptance condition cannot fire (acceptance then requires non-empty text or
a sufficient interval). -/
theorem claim_C10 (minimum_interval : ℚ) :
    (∀ (st : Option ℚ) (text : String) (now : ℚ),
      (step st text now minimum_interval).1.isSome = true) ∧
    (∀ (t now : ℚ) (text : String),
      acceptCond (some t) text now minimum_interval =
        (decide (0 < text.length) || decide (now - t ≥ minimum_interval))) ∧
    (∀ (attempts : List (String × ℚ)) (st : Option ℚ) (text : String)
      (st1 : Option ℚ) (rest : List (String × ℚ)),
      wait_for_enter minimum_interval st attempts = some (text, st1, rest) →
      st1.isSome = true) := by
  refine ⟨fun _ _ _ => rfl, fun _ _ _ => rfl, ?_⟩
  intro attempts st text st1 rest h
  obtain ⟨now, rfl, -⟩ := wait_result_state minimum_interval attempts st text st1 rest h
  rfl

/-- Witness for C10: a concrete run returning a `some` state. -/
theorem claim_C10_witness :
    (Keypress.step none "" 0 (4/5)).1.isSome = true ∧
    Keypress.acceptCond (some 0) "" (1/5) (4/5) =
      (decide (0 < "".length) || decide ((1:ℚ)/5 - 0 ≥ 4/5)) ∧
    (some (0:ℚ)).isSome = true :=
  ⟨(claim_C10 (4/5)).1 none "" 0, (claim_C10 (4/5)).2.1 0 (1/5) "",
    (claim_C10 (4/5)).2.2 [("", 0)] none "" (some 0) [] (by decide)⟩

/-! ### Helper lemmas for `KeyReader` -/

/-- `read()` with a non-empty buffer consumes exactly the first character. -/
theorem read_cons (p : Platform) (kr : KeyReader) (attrs : TermAttrs) (c : Char)
    (rest : List Char) (out : List String) :
    KeyReader.read p kr ⟨attrs, c :: rest, out⟩ = some (some c, ⟨attrs, rest, out⟩) := by
  cases p <;> simp [KeyReader.read, kbhit, selectReady, blockingFetch]

/-- `read()` with an empty buffer returns `None` and consumes nothing. -/
theorem read_nil (p : Platform) (kr : KeyReader) (attrs : TermAttrs)
    (out : List String) :
    KeyReader.read p kr ⟨attrs, [], out⟩ = some (none, ⟨attrs, [], out⟩) := by
  cases p <;> simp [KeyReader.read, kbhit, selectReady]

/-- Calling `read()` once per buffered character drains the buffer in order. -/
theorem reads_drain (p : Platform) (kr : KeyReader) :
    ∀ (buf : List Char) (attrs : TermAttrs) (out : List String),
      reads p kr buf.length ⟨attrs, buf, out⟩ = (buf.map some, ⟨attrs, [], out⟩)
  | [], _, _ => rfl
  | c :: rest, attrs, out => by
      simp [reads, read_cons, reads_drain p kr rest attrs out]

/-! ### Claim theorems for `key_reader.py` -/

/-- C2: with a buffer of N characters and no new input, N calls to `read()`
return exactly those characters, one per call, in their original order; the
buffer is then empty and the next call returns `None`; each single call on a
non-empty buffer consumes exactly its first character. -/
theorem claim_C2 (p : Platform) (kr : KeyReader) (attrs : TermAttrs)
    (buf : List Char) (out : List String) :
    (reads p kr buf.length ⟨attrs, buf, out⟩).1 = buf.map some ∧
    (reads p kr buf.length ⟨attrs, buf, out⟩).2 = ⟨attrs, [], out⟩ ∧
    KeyReader.read p kr ⟨attrs, [], out⟩ = some (none, ⟨attrs, [], out⟩) ∧
    (∀ c rest, buf = c :: rest →
      KeyReader.read p kr ⟨attrs, buf, out⟩ = some (some c, ⟨attrs, rest, out⟩)) := by
  refine ⟨?_, ?_, read_nil p kr attrs out, ?_⟩
  · rw [reads_drain]
  · rw [reads_drain]
  · rintro c rest rfl
    exact read_cons p kr attrs c rest out

/-- Witness for C2 with the two-character buffer "ab". -/
theorem claim_C2_witness :
    (reads Platform.posix (KeyReader.init false) 2 ⟨[], ['a', 'b'], []⟩).1 =
      [some 'a', some 'b'] ∧
    KeyReader.read Platform.posix (KeyReader.init false) ⟨[], ['a', 'b'], []⟩ =
      some (some 'a', ⟨[], ['b'], []⟩) :=
  ⟨(claim_C2 Platform.posix (KeyReader.init false) [] ['a', 'b'] []).1,
    (claim_C2 Platform.posix (KeyReader.init false) [] ['a', 'b'] []).2.2.2 'a' ['b'] rfl⟩

/-- C3: used through the with-statement (`__enter__` calls `open()`,
`__exit__` calls `close()` on both the normal and the exceptional path), the
final terminal attributes equal the snapshot `open()` captured — the
attributes at entry; the only propagated exception is the body's own (close
never fails after open); and on the POSIX path `open()` records exactly the
entry attributes as `old_settings`. -/
theorem claim_C3 {E : Type} (p : Platform) (cbreak : TermAttrs → TermAttrs)
    (verbose : Bool)
    (body : List Char × List String → (List Char × List String) × Option E)
    (s : SysState) :
    (withKeyReader p cbreak verbose body s).1.attrs = s.attrs ∧
    (withKeyReader p cbreak verbose body s).2 =
      Option.map Sum.inl
        (body ((KeyReader.open p cbreak (KeyReader.init verbose) s).2.buf,
               (KeyReader.open p cbreak (KeyReader.init verbose) s).2.out)).2 ∧
    (KeyReader.open Platform.posix cbreak (KeyReader.init verbose) s).1.old_settings =
      some s.attrs := by
  cases p <;> cases verbose <;>
    simp [withKeyReader, KeyReader.open, KeyReader.close, KeyReader.init]

/-- C7: `read()` never blocks: every call returns (the guarded blocking fetch
is reached only when input is available), an empty buffer yields `None` with
the state untouched, while the unguarded blocking fetch alone would block on
an empty buffer. -/
theorem claim_C7 (p : Platform) (kr : KeyReader) (s : SysState) :
    (KeyReader.read p kr s).isSome = true ∧
    (s.buf = [] → KeyReader.read p kr s = some (none, s)) ∧
    blockingFetch ([] : List Char) = none := by
  obtain ⟨attrs, buf, out⟩ := s
  refine ⟨?_, ?_, rfl⟩
  · cases buf with
    | nil => rw [read_nil]; rfl
    | cons c rest => rw [read_cons]; rfl
  · intro h
    simp only at h
    subst h
    exact read_nil p kr attrs out

/-- Witness for C7: on an empty buffer, `read()` returns `None` at once. -/
theorem claim_C7_witness :
    (KeyReader.read Platform.posix (KeyReader.init false) ⟨[], [], []⟩).isSome = true ∧
    KeyReader.read Platform.posix (KeyReader.init false) ⟨[], [], []⟩ =
      some (none, ⟨[], [], []⟩) ∧
    blockingFetch ([] : List Char) = none :=
  ⟨(claim_C7 Platform.posix (KeyReader.init false) ⟨[], [], []⟩).1,
    (claim_C7 Platform.posix (KeyReader.init false) ⟨[], [], []⟩).2.1 rfl,
    (claim_C7 Platform.posix (KeyReader.init false) ⟨[], [], []⟩).2.2⟩

/-- C8: the verbosity flag only changes the diagnostic lines on standard
output: `read()` is entirely independent of it, and `open()`/`close()` with
`verbose := true` produce the same saved settings, terminal attributes, input
buffer and close-time error as with `verbose := false`. -/
theorem claim_C8 (p : Platform) (cbreak : TermAttrs → TermAttrs)
    (os : Option TermAttrs) (s : SysState) :
    KeyReader.read p ⟨true, os⟩ s = KeyReader.read p ⟨false, os⟩ s ∧
    (KeyReader.open p cbreak ⟨true, os⟩ s).1.old_settings =
      (KeyReader.open p cbreak ⟨false, os⟩ s).1.old_settings ∧
    (KeyReader.open p cbreak ⟨true, os⟩ s).2.attrs =
      (KeyReader.open p cbreak ⟨false, os⟩ s).2.attrs ∧
    (KeyReader.open p cbreak ⟨true, os⟩ s).2.buf =
      (KeyReader.open p cbreak ⟨false, os⟩ s).2.buf ∧
    (KeyReader.close p ⟨true, os⟩ s).1.attrs =
      (KeyReader.close p ⟨false, os⟩ s).1.attrs ∧
    (KeyReader.close p ⟨true, os⟩ s).1.buf =
      (KeyReader.close p ⟨false, os⟩ s).1.buf ∧
    (KeyReader.close p ⟨true, os⟩ s).2 = (KeyReader.close p ⟨false, os⟩ s).2 := by
  cases p <;> cases os <;>
    simp [KeyReader.read, KeyReader.open, KeyReader.close]

/-- C9: on the POSIX path, `close()` on a reader that was never opened raises
`AttributeError` (`old_settings` is assigned only in `open()`) and changes no
terminal attributes; on the win32 no-op path the same call succeeds and also
touches no terminal state. -/
theorem claim_C9 (verbose : Bool) (s : SysState) :
    (KeyReader.close Platform.posix (KeyReader.init verbose) s).2 =
      some PyError.attributeError ∧
    (KeyReader.close Platform.posix (KeyReader.init verbose) s).1.attrs = s.attrs ∧
    (KeyReader.close Platform.win32 (KeyReader.init verbose) s).2 = none ∧
    (KeyReader.close Platform.win32 (KeyReader.init verbose) s).1.attrs = s.attrs := by
  cases verbose <;> simp [KeyReader.close, KeyReader.init]

end Keypress
